import Mathlib

set_option autoImplicit false

/-!
Verification development for the AutoUI platform's execution scheduling and
recording session engine.  The definitions below are a shallow embedding of
the Go source: the step-execution driver (`executeTestCase` and its helpers),
the worker-pool scheduler (`InitExecutor`, `ExecuteTestCaseWithOptions`,
`CancelExecution`, the worker completion sequence), and the recording session
manager (`RecorderManager` and `ChromeRecorder`).  All browser-side effects
(chromedp calls, file system, clock) are abstracted into explicit environment
records whose fields give the outcome of each external call; the control flow
and the data written into results mirror the source line by line.
-/

namespace AutoUI

/-- Modelled from the spec: a value stored in a step's `coordinates` or
`options` map (Go `map[string]interface{}`).  The driver only asks whether the
entry named scrollY holds a float64, so the payload is abstracted to an
integer magnitude. -/
inductive CoordValue where
  | num (magnitude : Int)
  | other
deriving Repr, DecidableEq

/-- Modelled from the spec: one recorded user-interaction step
(`models.TestStep`, whose declaring file is outside the staged sources):
tagged variant of type, selector, value, coordinates, options.  `type` ranges
over the eight recorded kinds; ordering within a sequence is significant. -/
structure TestStep where
  type : String
  selector : String
  value : String
  coordinates : List (String × CoordValue)
  options : List (String × CoordValue)
deriving Repr, DecidableEq

/-- Modelled from the spec: the device-profile fields the driver reads
(`models.Device`): emulation target, read-only to the core. -/
structure Device where
  name : String
  width : Int
  height : Int
deriving Repr, DecidableEq

/-- The test-case fields the driver reads: device profile and target URL.
The stored step JSON itself is abstracted: its parse result is a field of
`ExecEnv` (Go `testCase.GetSteps()`). -/
structure TestCaseM where
  device : Device
  targetURL : String
deriving Repr, DecidableEq

/-- One entry of `ExecutionResult.Logs`.  The wall-clock `Timestamp` field of
the Go struct is not modelled; `stepIndex` is `-1` when not step-scoped. -/
structure ExecutionLog where
  level : String
  message : String
  stepIndex : Int
deriving Repr, DecidableEq

/-- `models.PerformanceMetric` as the driver fills it (best-effort; the Go
float64 field is abstracted to an integer, no claim reads it). -/
structure PerformanceMetric where
  domContentLoaded : Int
  memoryUsage : Int
  networkRequests : Int
  pageLoadTime : Int
deriving Repr, DecidableEq

/-- `executor.ExecutionResult`: the structured outcome of one job. -/
structure ExecutionResult where
  success : Bool
  errorMessage : String
  screenshots : List String
  logs : List ExecutionLog
  metrics : Option PerformanceMetric
deriving Repr, DecidableEq

/-- `ExecutionResult.addLog`: append one log entry (timestamp dropped). -/
def ExecutionResult.addLog (r : ExecutionResult) (level message : String)
    (stepIndex : Int) : ExecutionResult :=
  { r with logs := r.logs ++ [⟨level, message, stepIndex⟩] }

/-- The caller-side pattern around `takeScreenshot`: append the returned
filename to the evidence list exactly when the capture produced one (Go
compares the returned path with the empty string). -/
def appendShot (r : ExecutionResult) (shot : Option String) : ExecutionResult :=
  match shot with
  | some p => { r with screenshots := r.screenshots ++ [p] }
  | none => r

/-- The outcome of every external call one run of `executeTestCase` makes,
packaged as an oracle.  `none` for an error field means the call succeeded;
`actionErr i` is the outcome of the chromedp action run for the step at index
`i`; `screenshot tag i` is the filename `takeScreenshot` returns (`none`
models the empty-string return on capture or save failure). -/
structure ExecEnv where
  parsedSteps : Except String (List TestStep)
  chromePath : String
  statErr : Option String
  viewportErr : Option String
  navigateErr : Option String
  readyErr : Option String
  pageTitle : String
  pageURL : String
  actionErr : Nat → Option String
  screenshot : String → Nat → Option String
  metrics : PerformanceMetric
  elapsedMs : Int

/-- `TestExecutor.executeClick`: wait for the selector and click; a chromedp
failure is wrapped with the selector. -/
def executeClick (env : ExecEnv) (step : TestStep) (stepIndex : Nat) :
    Option String :=
  match env.actionErr stepIndex with
  | some e => some ("failed to click element " ++ step.selector ++ ": " ++ e)
  | none => none

/-- `TestExecutor.executeScroll`: acts only when the coordinates map holds a
float64 under scrollY, otherwise returns nil without touching the browser. -/
def executeScroll (env : ExecEnv) (step : TestStep) (stepIndex : Nat) :
    Option String :=
  match step.coordinates.find? (fun p => p.1 == "scrollY") with
  | some (_, CoordValue.num _) => env.actionErr stepIndex
  | _ => none

/-- `TestExecutor.executeTouch`: touchstart degrades to click semantics,
touchend is a no-op returning nil. -/
def executeTouch (env : ExecEnv) (step : TestStep) (stepIndex : Nat) :
    Option String :=
  if step.type = "touchstart" then executeClick env step stepIndex else none

/-- `TestExecutor.executeStep`: dispatch on the step type; input, keydown,
change and submit return the chromedp outcome unwrapped; an unknown type is
an unsupported-step-type error. -/
def executeStep (env : ExecEnv) (step : TestStep) (stepIndex : Nat) :
    Option String :=
  if step.type = "click" then executeClick env step stepIndex
  else if step.type = "input" then env.actionErr stepIndex
  else if step.type = "keydown" then env.actionErr stepIndex
  else if step.type = "scroll" then executeScroll env step stepIndex
  else if step.type = "touchstart" ∨ step.type = "touchend" then
    executeTouch env step stepIndex
  else if step.type = "change" then env.actionErr stepIndex
  else if step.type = "submit" then env.actionErr stepIndex
  else some ("unsupported step type: " ++ step.type)

/-- `TestExecutor.shouldTakeScreenshot`: screenshots are captured after the
key interaction types only. -/
def shouldTakeScreenshot (step : TestStep) : Bool :=
  (["click", "submit", "change"] : List String).contains step.type

/-- The code after the step loop in `executeTestCase`: final screenshot,
best-effort metrics with the measured page load time, mark success, closing
log entry. -/
def finishRun (env : ExecEnv) (n : Nat) (acc : ExecutionResult) :
    ExecutionResult :=
  let acc := appendShot acc (env.screenshot "final" n)
  let acc :=
    { acc with metrics := some { env.metrics with pageLoadTime := env.elapsedMs } }
  let acc := { acc with success := true }
  acc.addLog "info" "Test case execution completed successfully" (-1)

/-- The step loop of `executeTestCase`: log the attempt, dispatch the step;
on failure set the error message, log it, append the error screenshot when
captured, and return; on success log completion, append the selective
screenshot for key step types, and continue with the next index. -/
def runSteps (env : ExecEnv) : List TestStep → Nat → ExecutionResult →
    ExecutionResult
  | [], i, acc => finishRun env i acc
  | step :: rest, i, acc =>
    let acc := acc.addLog "info"
      ("Executing step " ++ toString (i + 1) ++ ": " ++ step.type) (i : Int)
    match executeStep env step i with
    | some e =>
      let msg := "Step " ++ toString (i + 1) ++ " failed: " ++ e
      let acc := { acc with errorMessage := msg }
      let acc := acc.addLog "error" msg (i : Int)
      appendShot acc (env.screenshot "error" i)
    | none =>
      let acc := acc.addLog "info"
        ("Step " ++ toString (i + 1) ++ " completed successfully") (i : Int)
      let acc :=
        if shouldTakeScreenshot step then appendShot acc (env.screenshot "step" i)
        else acc
      runSteps env rest (i + 1) acc

/-- The zero value the driver starts from. -/
def initialResult : ExecutionResult :=
  { success := false, errorMessage := "", screenshots := [], logs := [],
    metrics := none }

/-- `TestExecutor.executeTestCase`: parse the stored steps, check the Chrome
binary, emulate the device (non-fatal), navigate (fatal), wait for readiness
(non-fatal), capture the initial screenshot, then run the step loop. -/
def executeTestCase (env : ExecEnv) (tc : TestCaseM) : ExecutionResult :=
  let result := initialResult
  match env.parsedSteps with
  | Except.error e =>
    { result with errorMessage := "Failed to parse test steps: " ++ e }
  | Except.ok steps =>
    if env.chromePath = "" then
      let r := { result with errorMessage :=
        "Chrome browser not found. Please install Google Chrome or Chromium" }
      r.addLog "error" "Chrome not found in system" (-1)
    else
      let r := result.addLog "info"
        ("Using Chrome path: " ++ env.chromePath) (-1)
      match env.statErr with
      | some e =>
        let r := { r with errorMessage :=
          "Chrome executable not accessible: " ++ e }
        r.addLog "error" ("Chrome path not accessible: " ++ e) (-1)
      | none =>
        let r := r.addLog "info"
          ("Setting up device emulation: " ++ tc.device.name ++ " (" ++
            toString tc.device.width ++ "x" ++ toString tc.device.height ++ ")")
          (-1)
        let r :=
          match env.viewportErr with
          | some e =>
            r.addLog "warn" ("Failed to set viewport emulation: " ++ e) (-1)
          | none => r.addLog "info" "Device viewport emulation enabled" (-1)
        let r := r.addLog "info"
          ("Navigating to target URL: " ++ tc.targetURL) (-1)
        match env.navigateErr with
        | some e =>
          { r with errorMessage := "Failed to navigate to URL: " ++ e }
        | none =>
          let r := r.addLog "info" "Waiting for page to load..." (-1)
          let r :=
            match env.readyErr with
            | some _ =>
              let r := r.addLog "warn"
                ("Page load timeout - Title: " ++ env.pageTitle ++
                  ", URL: " ++ env.pageURL) (-1)
              r.addLog "warn" "Page not fully loaded, continuing with execution"
                (-1)
            | none => r.addLog "info" "Page loaded successfully" (-1)
          let r := r.addLog "info"
            ("Page info - Title: " ++ env.pageTitle ++ ", URL: " ++
              env.pageURL) (-1)
          let r := appendShot r (env.screenshot "initial" 0)
          runSteps env steps 0 r

/-! ## Job scheduler (worker pool) -/

/-- The fields of `executor.ExecutionJob` the scheduler reads: the execution
record's identity (the test case, visual flag and result channel carry no
scheduler-visible state). -/
structure ExecutionJobM where
  executionId : Nat
deriving Repr, DecidableEq

/-- The scheduler-visible state of `executor.TestExecutor`: the configured
worker bound, the started worker goroutines (by index), the shared bounded
queue with its capacity, and the running-id set (Go `map[uint]bool`). -/
structure TestExecutorM where
  maxWorkers : Nat
  workers : List Nat
  queueCap : Nat
  workQueue : List ExecutionJobM
  running : Finset Nat
deriving DecidableEq

/-- `executor.InitExecutor`: a queue of capacity `maxWorkers*2`, an empty
running set, and one started worker per index below `maxWorkers`. -/
def InitExecutor (maxWorkers : Nat) : TestExecutorM :=
  { maxWorkers := maxWorkers
    workers := List.range maxWorkers
    queueCap := maxWorkers * 2
    workQueue := []
    running := ∅ }

/-- Outcome of a submission: either the job is in the queue, or the producer
is blocked on the full channel (bounded backpressure, not an error). -/
inductive SubmitOutcome where
  | enqueued (s : TestExecutorM)
  | blocked (s : TestExecutorM)
deriving DecidableEq

/-- `TestExecutor.ExecuteTestCaseWithOptions`: mark the execution id running,
then send the job on the bounded queue; the send blocks while the queue holds
`queueCap` jobs. -/
def ExecuteTestCaseWithOptions (s : TestExecutorM) (job : ExecutionJobM) :
    SubmitOutcome :=
  let s1 := { s with running := insert job.executionId s.running }
  if s1.workQueue.length < s1.queueCap then
    SubmitOutcome.enqueued { s1 with workQueue := s1.workQueue ++ [job] }
  else
    SubmitOutcome.blocked s1

/-- `TestExecutor.IsRunning`: membership in the running set. -/
def IsRunning (s : TestExecutorM) (executionId : Nat) : Bool :=
  decide (executionId ∈ s.running)

/-- `TestExecutor.GetRunningCount`: size of the running set. -/
def GetRunningCount (s : TestExecutorM) : Nat :=
  s.running.card

/-- `TestExecutor.CancelExecution`: remove the id and report true when it was
present; otherwise report false and leave the state unchanged. -/
def CancelExecution (s : TestExecutorM) (executionId : Nat) :
    Bool × TestExecutorM :=
  if executionId ∈ s.running then
    (true, { s with running := s.running.erase executionId })
  else
    (false, s)

/-- The observable actions of the tail of `TestExecutor.worker`, in program
order. -/
inductive WorkerEvent where
  | removedRunning (id : Nat)
  | publishedResult (id : Nat) (r : ExecutionResult)
deriving Repr, DecidableEq

/-- The tail of `TestExecutor.worker` once `executeTestCase` has returned:
delete the execution id from the running set, then send the result on the
job's result channel.  The returned trace lists the two actions in the order
the source performs them. -/
def workerFinish (s : TestExecutorM) (job : ExecutionJobM)
    (res : ExecutionResult) : TestExecutorM × List WorkerEvent :=
  ({ s with running := s.running.erase job.executionId },
   [WorkerEvent.removedRunning job.executionId,
    WorkerEvent.publishedResult job.executionId res])

/-! ## Recording session manager -/

/-- `recorder.RecordStep`: one captured interaction event. -/
structure RecordStep where
  type : String
  selector : String
  value : String
  coordinates : List (String × CoordValue)
  options : List (String × CoordValue)
  timestamp : Int
  screenshot : String
deriving Repr, DecidableEq

/-- `recorder.DeviceInfo`. -/
structure DeviceInfo where
  width : Int
  height : Int
  userAgent : String
deriving Repr, DecidableEq

/-- The session-visible state of `recorder.ChromeRecorder` (the browser
context and websocket handles are external resources). -/
structure ChromeRecorderM where
  isRecording : Bool
  steps : List RecordStep
  sessionID : String
  deviceInfo : DeviceInfo
deriving Repr, DecidableEq

/-- Outcome of the external calls one `ChromeRecorder.StartRecording` attempt
makes: the Chrome binary lookup and the navigate-and-inject chromedp run. -/
structure RecEnv where
  chromePath : String
  startErr : Option String

/-- `recorder.NewChromeRecorder`. -/
def NewChromeRecorder (sessionID : String) (device : DeviceInfo) :
    ChromeRecorderM :=
  { isRecording := false, steps := [], sessionID := sessionID,
    deviceInfo := device }

/-- `ChromeRecorder.StartRecording`: rejects when already recording or Chrome
is missing; a failed navigate-and-inject run is reported and leaves the
recorder unstarted; on success the step buffer is reset and recording is on.
The returned pair is (error, recorder state after the call). -/
def ChromeRecorderM.StartRecording (env : RecEnv) (r : ChromeRecorderM)
    (_targetURL : String) : Option String × ChromeRecorderM :=
  if r.isRecording then
    (some "recording is already in progress", r)
  else if env.chromePath = "" then
    (some "Chrome browser not found. Please install Google Chrome or Chromium",
     r)
  else
    match env.startErr with
    | some e => (some ("failed to start recording: " ++ e), r)
    | none => (none, { r with isRecording := true, steps := [] })

/-- `ChromeRecorder.StopRecording`: errors when no recording is in progress,
otherwise cancels the browser context and clears the flag; the step buffer is
left as accumulated. -/
def ChromeRecorderM.StopRecording (r : ChromeRecorderM) :
    Option String × ChromeRecorderM :=
  if r.isRecording = false then
    (some "no recording in progress", r)
  else
    (none, { r with isRecording := false })

/-- `ChromeRecorder.GetSteps`: a snapshot copy of the accumulated steps. -/
def ChromeRecorderM.GetSteps (r : ChromeRecorderM) : List RecordStep :=
  r.steps

/-- `ChromeRecorder.IsRecording`. -/
def ChromeRecorderM.IsRecording (r : ChromeRecorderM) : Bool :=
  r.isRecording

/-- `recorder.RecorderManager`: the registry of sessions keyed by id (Go
`map[string]*ChromeRecorder`, modelled as an association list). -/
structure RecorderManagerM where
  recorders : List (String × ChromeRecorderM)
deriving Repr, DecidableEq

/-- Registry lookup by session id. -/
def lookupRecorder (m : RecorderManagerM) (sessionID : String) :
    Option ChromeRecorderM :=
  (m.recorders.find? (fun p => p.1 == sessionID)).map Prod.snd

/-- `RecorderManager.StartRecording`: rejects a duplicate session id without
touching the registry; otherwise creates a recorder, starts it, and registers
it only on success. -/
def RecorderManagerM.StartRecording (env : RecEnv) (m : RecorderManagerM)
    (sessionID targetURL : String) (device : DeviceInfo) :
    Option String × RecorderManagerM :=
  match lookupRecorder m sessionID with
  | some _ =>
    (some ("recording session " ++ sessionID ++ " already exists"), m)
  | none =>
    let r := NewChromeRecorder sessionID device
    match ChromeRecorderM.StartRecording env r targetURL with
    | (some e, _) => (some e, m)
    | (none, r1) =>
      (none, { m with recorders := m.recorders ++ [(sessionID, r1)] })

/-- `RecorderManager.StopRecording`: an unknown id is a not-found error; a
recorder-level error is propagated and mutates nothing; on success the
session stays in the registry with its flag cleared (Go mutates the recorder
through the registry's pointer). -/
def RecorderManagerM.StopRecording (m : RecorderManagerM)
    (sessionID : String) : Option String × RecorderManagerM :=
  match lookupRecorder m sessionID with
  | none =>
    (some ("recording session " ++ sessionID ++ " not found"), m)
  | some r =>
    match ChromeRecorderM.StopRecording r with
    | (some e, _) => (some e, m)
    | (none, r1) =>
      (none, { m with recorders :=
        m.recorders.map (fun p => if p.1 == sessionID then (p.1, r1) else p) })

/-- `RecorderManager.CleanupRecording`: deletes the entry when present and
returns nil in every case. -/
def RecorderManagerM.CleanupRecording (m : RecorderManagerM)
    (sessionID : String) : Option String × RecorderManagerM :=
  (none, { m with recorders :=
    m.recorders.filter (fun p => !(p.1 == sessionID)) })

/-- `RecorderManager.GetRecordingStatus`: the recording flag and a snapshot
of the steps, or a not-found error. -/
def RecorderManagerM.GetRecordingStatus (m : RecorderManagerM)
    (sessionID : String) : Option (Bool × List RecordStep) :=
  (lookupRecorder m sessionID).map
    (fun r => (ChromeRecorderM.IsRecording r, ChromeRecorderM.GetSteps r))

/-! ## Concrete sample data for counterexamples and witnesses -/

/-- A click step on one selector. -/
def clickStep (sel : String) : TestStep := ⟨"click", sel, "", [], []⟩

/-- An input step with a value. -/
def inputStep (sel v : String) : TestStep := ⟨"input", sel, v, [], []⟩

/-- A deterministic screenshot filename, standing in for the generated
`{tag}_{timestamp}_{stepIndex}_{random}.png` names. -/
def shotName (tag : String) (stepIndex : Nat) : String :=
  tag ++ "_" ++ toString stepIndex ++ ".png"

/-- An environment in which every external call succeeds. -/
def envAllOk (steps : List TestStep) : ExecEnv :=
  { parsedSteps := Except.ok steps
    chromePath := "/usr/bin/google-chrome"
    statErr := none
    viewportErr := none
    navigateErr := none
    readyErr := none
    pageTitle := "t"
    pageURL := "u"
    actionErr := fun _ => none
    screenshot := fun tag i => some (shotName tag i)
    metrics := ⟨0, 0, 0, 0⟩
    elapsedMs := 0 }

/-- A sample test case. -/
def tcSample : TestCaseM := { device := ⟨"iPhone", 375, 812⟩, targetURL := "http://x" }

/-- The stored step JSON fails to parse. -/
def envParseFail : ExecEnv :=
  { envAllOk [] with parsedSteps := Except.error "invalid character" }

/-- Steps parse but the Chrome binary is missing: a failing run past the
parse stage. -/
def envChromeMissing : ExecEnv :=
  { envAllOk [] with chromePath := "" }

/-- Three steps: the first succeeds, the second fails, the third never
runs. -/
def envStep1Fails : ExecEnv :=
  { envAllOk [clickStep "#a", clickStep "#b", inputStep "#c" "v"] with
    actionErr := fun i => if i = 1 then some "element not visible" else none }

/-- Three steps of which two (click and submit) are key interaction types. -/
def stepsAllOk : List TestStep :=
  [clickStep "#a", inputStep "#c" "v", ⟨"submit", "#f", "", [], []⟩]

/-- Two steps: a click that succeeds, then a step of an unrecorded type. -/
def stepsWithHover : List TestStep :=
  [clickStep "#a", ⟨"hover", "#menu", "", [], []⟩]

/-- A sample device profile for recording sessions. -/
def devSample : DeviceInfo := ⟨375, 812, "ua"⟩

/-- A live recording session. -/
def recSample : ChromeRecorderM :=
  { isRecording := true, steps := [], sessionID := "s1", deviceInfo := devSample }

/-- A registry holding the one live session under id s1. -/
def mgrSample : RecorderManagerM := ⟨[("s1", recSample)]⟩

/-- A recording environment in which Chrome is present and the
navigate-and-inject run succeeds. -/
def recEnvOk : RecEnv := { chromePath := "/usr/bin/google-chrome", startErr := none }

/-! ## Projection lemmas for the result-building helpers -/

@[simp] lemma addLog_logs (r : ExecutionResult) (lv msg : String) (i : Int) :
    (ExecutionResult.addLog r lv msg i).logs = r.logs ++ [⟨lv, msg, i⟩] := rfl

@[simp] lemma addLog_success (r : ExecutionResult) (lv msg : String) (i : Int) :
    (ExecutionResult.addLog r lv msg i).success = r.success := rfl

@[simp] lemma addLog_errorMessage (r : ExecutionResult) (lv msg : String) (i : Int) :
    (ExecutionResult.addLog r lv msg i).errorMessage = r.errorMessage := rfl

@[simp] lemma addLog_screenshots (r : ExecutionResult) (lv msg : String) (i : Int) :
    (ExecutionResult.addLog r lv msg i).screenshots = r.screenshots := rfl

@[simp] lemma appendShot_logs (r : ExecutionResult) (o : Option String) :
    (appendShot r o).logs = r.logs := by cases o <;> rfl

@[simp] lemma appendShot_success (r : ExecutionResult) (o : Option String) :
    (appendShot r o).success = r.success := by cases o <;> rfl

@[simp] lemma appendShot_errorMessage (r : ExecutionResult) (o : Option String) :
    (appendShot r o).errorMessage = r.errorMessage := by cases o <;> rfl

@[simp] lemma appendShot_screenshots (r : ExecutionResult) (o : Option String) :
    (appendShot r o).screenshots = r.screenshots ++ o.toList := by
  cases o <;> simp [appendShot]

@[simp] lemma ite_appendShot_logs (c : Prop) [Decidable c]
    (r : ExecutionResult) (o : Option String) :
    (if c then appendShot r o else r).logs = r.logs := by split <;> simp

@[simp] lemma ite_appendShot_success (c : Prop) [Decidable c]
    (r : ExecutionResult) (o : Option String) :
    (if c then appendShot r o else r).success = r.success := by split <;> simp

@[simp] lemma ite_appendShot_errorMessage (c : Prop) [Decidable c]
    (r : ExecutionResult) (o : Option String) :
    (if c then appendShot r o else r).errorMessage = r.errorMessage := by
  split <;> simp

@[simp] lemma ite_appendShot_screenshots (c : Prop) [Decidable c]
    (r : ExecutionResult) (o : Option String) :
    (if c then appendShot r o else r).screenshots =
      r.screenshots ++ (if c then o.toList else []) := by
  split <;> simp

/-- The screenshots of the accumulator a successful step leaves behind: the
two log appends leave them alone, the selective capture appends at most one
filename. -/
lemma screenshots_of_stepAcc (acc : ExecutionResult) (lv1 m1 lv2 m2 : String)
    (j : Int) (c : Bool) (o : Option String) :
    (if c then appendShot ((acc.addLog lv1 m1 j).addLog lv2 m2 j) o
      else (acc.addLog lv1 m1 j).addLog lv2 m2 j).screenshots =
      acc.screenshots ++ (if c then o.toList else []) := by
  cases c <;> simp

/-! ## Lemmas about the step-execution driver -/

/-- The epilogue after the step loop always appends its closing log entry. -/
lemma finishRun_logs_ne_nil (env : ExecEnv) (n : Nat) (acc : ExecutionResult) :
    (finishRun env n acc).logs ≠ [] := by
  simp [finishRun]

/-- Every path through the step loop appends at least one log entry. -/
lemma runSteps_logs_ne_nil (env : ExecEnv) (steps : List TestStep) :
    ∀ (i : Nat) (acc : ExecutionResult), (runSteps env steps i acc).logs ≠ [] := by
  induction steps with
  | nil => intro i acc; exact finishRun_logs_ne_nil env i acc
  | cons s rest ih =>
    intro i acc
    simp only [runSteps]
    cases h : executeStep env s i with
    | some e => simp
    | none => exact ih (i + 1) _

/-- When the stored steps parse, the Chrome binary checks out, and navigation
succeeds, `executeTestCase` reaches the step loop from a state with only
non-step-scoped logs, no error message, success still false, and at most the
initial screenshot captured. -/
lemma executeTestCase_reachLoop (env : ExecEnv) (tc : TestCaseM)
    (steps : List TestStep) (hp : env.parsedSteps = Except.ok steps)
    (hc : env.chromePath ≠ "") (hs : env.statErr = none)
    (hn : env.navigateErr = none) :
    ∃ r0 : ExecutionResult,
      executeTestCase env tc = runSteps env steps 0 r0 ∧
      (∀ l ∈ r0.logs, l.stepIndex = -1) ∧
      r0.success = false ∧ r0.errorMessage = "" ∧
      r0.screenshots = (env.screenshot "initial" 0).toList := by
  unfold executeTestCase
  rw [hp]
  dsimp only
  rw [if_neg hc, hs, hn]
  cases hv : env.viewportErr <;>
    cases hr : env.readyErr <;>
    dsimp only <;>
    refine ⟨_, rfl, ?_, ?_, ?_, ?_⟩ <;>
    simp [ExecutionResult.addLog, initialResult]

/-- Once the stored steps parse, every path of the driver, failing or not,
leaves at least one log entry. -/
lemma logs_nonempty_of_parse_ok (env : ExecEnv) (tc : TestCaseM)
    (steps : List TestStep) (hp : env.parsedSteps = Except.ok steps) :
    (executeTestCase env tc).logs ≠ [] := by
  unfold executeTestCase
  rw [hp]
  dsimp only
  by_cases hc : env.chromePath = ""
  · rw [if_pos hc]
    simp [ExecutionResult.addLog, initialResult]
  · rw [if_neg hc]
    cases hs : env.statErr with
    | some e => simp [ExecutionResult.addLog, initialResult]
    | none =>
      dsimp only
      cases hv : env.viewportErr <;>
        cases hn : env.navigateErr <;>
        cases hr : env.readyErr <;>
        dsimp only <;>
        first
          | exact runSteps_logs_ne_nil env steps 0 _
          | simp [ExecutionResult.addLog, initialResult]

/-- When every step from index `i` on succeeds and every screenshot capture
produces a filename, the step loop appends one selective screenshot per key
step (in step order) and the final screenshot, and marks success. -/
lemma runSteps_all_ok (env : ExecEnv) (shot : String → Nat → String)
    (hshot : ∀ t k, env.screenshot t k = some (shot t k)) :
    ∀ (steps : List TestStep) (i : Nat) (acc : ExecutionResult),
      (∀ k (hk : k < steps.length), executeStep env (steps.get ⟨k, hk⟩) (i + k) = none) →
      (runSteps env steps i acc).screenshots =
        acc.screenshots ++
          ((List.enumFrom i steps).filter (fun p => shouldTakeScreenshot p.2)).map
            (fun p => shot "step" p.1) ++ [shot "final" (i + steps.length)] ∧
      (runSteps env steps i acc).success = true := by
  intro steps
  induction steps with
  | nil =>
    intro i acc h
    constructor
    · simp [runSteps, finishRun, hshot]
    · simp [runSteps, finishRun]
  | cons s rest ih =>
    intro i acc h
    have h0 : executeStep env s i = none := by
      have hx := h 0 (by simp)
      simpa using hx
    have hrest : ∀ k (hk : k < rest.length),
        executeStep env (rest.get ⟨k, hk⟩) ((i + 1) + k) = none := by
      intro k hk
      have e : (i + 1) + k = i + (k + 1) := by omega
      rw [e]
      have hx := h (k + 1) (by simpa using Nat.succ_lt_succ hk)
      simpa using hx
    simp only [runSteps, h0]
    obtain ⟨ih1, ih2⟩ := ih (i + 1)
      (if shouldTakeScreenshot s then
        appendShot ((acc.addLog "info" ("Executing step " ++ toString (i + 1) ++ ": " ++ s.type) (i : Int)).addLog
          "info" ("Step " ++ toString (i + 1) ++ " completed successfully") (i : Int))
          (env.screenshot "step" i)
      else
        ((acc.addLog "info" ("Executing step " ++ toString (i + 1) ++ ": " ++ s.type) (i : Int)).addLog
          "info" ("Step " ++ toString (i + 1) ++ " completed successfully") (i : Int))) hrest
    refine ⟨?_, ih2⟩
    rw [ih1, screenshots_of_stepAcc]
    have hidx : i + 1 + rest.length = i + (s :: rest).length := by
      simp only [List.length_cons]
      omega
    rw [hidx, List.enumFrom_cons, List.filter_cons]
    by_cases hTs : shouldTakeScreenshot s
    · simp only [hTs, if_true, hshot, Option.toList, List.map_cons,
        List.append_assoc, List.cons_append, List.nil_append]
    · simp only [hTs, if_false, List.append_nil, Bool.false_eq_true,
        List.nil_append, List.append_assoc]

/-- Numbering the steps does not change how many are key interaction
types. -/
lemma length_filter_enumFrom (steps : List TestStep) :
    ∀ i : Nat,
      ((List.enumFrom i steps).filter (fun p => shouldTakeScreenshot p.2)).length =
        (steps.filter shouldTakeScreenshot).length := by
  induction steps with
  | nil => intro i; rfl
  | cons s rest ih =>
    intro i
    rw [List.enumFrom_cons, List.filter_cons, List.filter_cons]
    by_cases hTs : shouldTakeScreenshot s <;> simp [hTs, ih]

/-- A step type outside the eight recorded kinds dispatches to the
unsupported-step-type error. -/
lemma executeStep_unsupported (env : ExecEnv) (step : TestStep) (i : Nat)
    (h : step.type ∉ (["click", "input", "keydown", "scroll", "touchstart",
      "touchend", "change", "submit"] : List String)) :
    executeStep env step i = some ("unsupported step type: " ++ step.type) := by
  simp only [List.mem_cons, List.not_mem_nil, or_false, not_or] at h
  obtain ⟨h1, h2, h3, h4, h5, h6, h7, h8⟩ := h
  simp [executeStep, h1, h2, h3, h4, h5, h6, h7, h8]

lemma runSteps_stop_fail (env : ExecEnv) :
    ∀ (pre : List TestStep) (s : TestStep) (post : List TestStep) (i : Nat)
      (acc : ExecutionResult) (e : String),
      (∀ k (hk : k < pre.length), executeStep env (pre.get ⟨k, hk⟩) (i + k) = none) →
      executeStep env s (i + pre.length) = some e →
      (runSteps env (pre ++ s :: post) i acc).success = acc.success ∧
      (runSteps env (pre ++ s :: post) i acc).errorMessage =
        "Step " ++ toString (i + pre.length + 1) ++ " failed: " ++ e ∧
      ∀ l ∈ (runSteps env (pre ++ s :: post) i acc).logs,
        l ∈ acc.logs ∨ l.stepIndex ≤ (i + pre.length : Int) := by
  intro pre
  induction pre with
  | nil =>
    intro s post i acc e hpre hfail
    simp only [List.length_nil, Nat.add_zero] at hfail
    simp only [List.nil_append, runSteps, hfail]
    refine ⟨by simp, by simp [List.length_nil], ?_⟩
    intro l hl
    simp only [appendShot_logs, addLog_logs, List.append_assoc, List.mem_append,
      List.mem_cons, List.not_mem_nil, or_false] at hl
    rcases hl with hl | hl | hl
    · exact Or.inl hl
    · subst hl; right; simp
    · subst hl; right; simp
  | cons p pre' ih =>
    intro s post i acc e hpre hfail
    have h0 : executeStep env p i = none := by
      have hx := hpre 0 (by simp)
      simpa using hx
    have hpre' : ∀ k (hk : k < pre'.length),
        executeStep env (pre'.get ⟨k, hk⟩) ((i + 1) + k) = none := by
      intro k hk
      have eidx : (i + 1) + k = i + (k + 1) := by omega
      rw [eidx]
      have hx := hpre (k + 1) (by simpa using Nat.succ_lt_succ hk)
      simpa using hx
    have hfail' : executeStep env s ((i + 1) + pre'.length) = some e := by
      have eidx : (i + 1) + pre'.length = i + (p :: pre').length := by
        simp only [List.length_cons]
        omega
      rw [eidx]
      exact hfail
    simp only [List.cons_append, runSteps, h0, List.append_eq]
    obtain ⟨ha, hb, hc⟩ := ih s post (i + 1)
      (if shouldTakeScreenshot p then
        appendShot ((acc.addLog "info" ("Executing step " ++ toString (i + 1) ++ ": " ++ p.type) (i : Int)).addLog
          "info" ("Step " ++ toString (i + 1) ++ " completed successfully") (i : Int))
          (env.screenshot "step" i)
      else
        ((acc.addLog "info" ("Executing step " ++ toString (i + 1) ++ ": " ++ p.type) (i : Int)).addLog
          "info" ("Step " ++ toString (i + 1) ++ " completed successfully") (i : Int))) e hpre' hfail'
    have hidx2 : (i + 1) + pre'.length = i + (p :: pre').length := by
      simp only [List.length_cons]
      omega
    refine ⟨?_, ?_, ?_⟩
    · rw [ha]
      by_cases hTs : shouldTakeScreenshot p <;> simp [hTs]
    · rw [hb, hidx2]
    · intro l hl
      rcases hc l hl with hmem | hle
      · by_cases hTs : shouldTakeScreenshot p
        · simp only [hTs, if_true, appendShot_logs, addLog_logs, List.append_assoc,
            List.mem_append, List.mem_cons, List.not_mem_nil, or_false] at hmem
          rcases hmem with hm | hm | hm
          · exact Or.inl hm
          · subst hm; right; simp only [List.length_cons]; omega
          · subst hm; right; simp only [List.length_cons]; omega
        · simp only [hTs, if_false, addLog_logs, List.append_assoc, List.mem_append,
            List.mem_cons, List.not_mem_nil, or_false, Bool.false_eq_true] at hmem
          rcases hmem with hm | hm | hm
          · exact Or.inl hm
          · subst hm; right; simp only [List.length_cons]; omega
          · subst hm; right; simp only [List.length_cons]; omega
      · right
        simp only [List.length_cons] at hle ⊢
        push_cast at hle ⊢
        omega

/-! ## Lemmas about the session registry -/

/-- Updating the entry under a present key makes lookup return the new
value. -/
lemma find_update (l : List (String × ChromeRecorderM)) (sid : String)
    (r1 : ChromeRecorderM) (pr : String × ChromeRecorderM)
    (h : l.find? (fun p => p.1 == sid) = some pr) :
    (l.map (fun p => if p.1 == sid then (p.1, r1) else p)).find?
      (fun p => p.1 == sid) = some (sid, r1) := by
  induction l with
  | nil => simp at h
  | cons p l ih =>
    cases hb : p.1 == sid with
    | false =>
      rw [List.find?_cons_of_neg _ (by simp [hb])] at h
      rw [List.map_cons, if_neg (by simp [hb]),
        List.find?_cons_of_neg _ (by simp [hb])]
      exact ih h
    | true =>
      have hps : p.1 = sid := eq_of_beq hb
      rw [List.map_cons, if_pos hb, List.find?_cons_of_pos _ (by simpa using hb),
        hps]

/-- After a cleanup no entry under the removed key survives. -/
lemma find_after_cleanup (l : List (String × ChromeRecorderM)) (sid : String) :
    (l.filter (fun p => !(p.1 == sid))).find? (fun p => p.1 == sid) = none := by
  induction l with
  | nil => rfl
  | cons p l ih =>
    cases hb : p.1 == sid <;>
      simp [List.filter_cons, hb, List.find?_cons, ih]

/-! ## C1 -/

/-- C1, counterexample: on the path where parsing the stored step sequence
fails, the driver returns success=false with an empty logs sequence, so the
claim that logs is never empty on failure is false. -/
theorem C1_counterexample :
    (executeTestCase envParseFail tcSample).success = false ∧
    (executeTestCase envParseFail tcSample).logs = [] := by
  constructor <;> rfl

/-- C1 (amended): for every job whose stored step sequence parses
successfully, a result with success=false has a non-empty logs sequence; the
parse-failure path alone returns success=false with empty logs and only the
error message set. -/
theorem C1_failed_result_has_logs (env : ExecEnv) (tc : TestCaseM)
    (steps : List TestStep) (hp : env.parsedSteps = Except.ok steps)
    (hf : (executeTestCase env tc).success = false) :
    (executeTestCase env tc).logs ≠ [] :=
  logs_nonempty_of_parse_ok env tc steps hp

/-- C1, witness: a run whose steps parse but whose Chrome binary is missing
fails and indeed carries a log entry. -/
theorem C1_witness :
    envChromeMissing.parsedSteps = Except.ok [] ∧
    (executeTestCase envChromeMissing tcSample).success = false ∧
    (executeTestCase envChromeMissing tcSample).logs ≠ [] :=
  ⟨rfl, rfl, C1_failed_result_has_logs envChromeMissing tcSample [] rfl rfl⟩

/-! ## C2 -/

/-- C2, counterexample: with steps click(ok), click(fails), input(never run),
the result holds four log entries referencing step indices 0 and 1 (an
attempt entry and an outcome entry per step), not the two the claim states;
no entry references index 2. -/
theorem C2_counterexample :
    ((executeTestCase envStep1Fails tcSample).logs.filter
        (fun l => l.stepIndex = 0 ∨ l.stepIndex = 1)).length = 4 ∧
    ¬ ((executeTestCase envStep1Fails tcSample).logs.filter
        (fun l => l.stepIndex = 0 ∨ l.stepIndex = 1)).length = 2 := by
  constructor
  · rfl
  · decide

/-- C2 (amended): when step 0 succeeds and step 1 fails, replay stops at the
failing step: the result holds exactly two log entries whose stepIndex is 0
and exactly two whose stepIndex is 1 (the attempt and the outcome of each
executed step), no entry whose stepIndex is 2 or later, and success=false. -/
theorem C2_stops_at_first_failing_step (env : ExecEnv) (tc : TestCaseM)
    (s0 s1 : TestStep) (rest : List TestStep) (e : String)
    (hp : env.parsedSteps = Except.ok (s0 :: s1 :: rest))
    (hc : env.chromePath ≠ "") (hs : env.statErr = none)
    (hn : env.navigateErr = none)
    (h0 : executeStep env s0 0 = none) (h1 : executeStep env s1 1 = some e) :
    ((executeTestCase env tc).logs.filter (fun l => l.stepIndex = 0)).length = 2 ∧
    ((executeTestCase env tc).logs.filter (fun l => l.stepIndex = 1)).length = 2 ∧
    ((executeTestCase env tc).logs.filter (fun l => 2 ≤ l.stepIndex)).length = 0 ∧
    (executeTestCase env tc).success = false := by
  obtain ⟨r0, heq, hlogs, hsucc, -, -⟩ :=
    executeTestCase_reachLoop env tc (s0 :: s1 :: rest) hp hc hs hn
  rw [heq]
  have hq0 : r0.logs.filter (fun l => decide (l.stepIndex = 0)) = [] :=
    List.filter_eq_nil_iff.mpr (fun a ha => by simp [hlogs a ha])
  have hq1 : r0.logs.filter (fun l => decide (l.stepIndex = 1)) = [] :=
    List.filter_eq_nil_iff.mpr (fun a ha => by simp [hlogs a ha])
  have hq2 : r0.logs.filter (fun l => decide ((2:Int) ≤ l.stepIndex)) = [] :=
    List.filter_eq_nil_iff.mpr (fun a ha => by simp [hlogs a ha])
  simp only [runSteps, h0, h1]
  simp [List.filter_append, hq0, hq1, hq2, hsucc, ExecutionResult.addLog]

/-- C2, witness: the amended statement at the concrete three-step run. -/
theorem C2_witness :
    executeStep envStep1Fails (clickStep "#a") 0 = none ∧
    executeStep envStep1Fails (clickStep "#b") 1 =
      some "failed to click element #b: element not visible" ∧
    (((executeTestCase envStep1Fails tcSample).logs.filter
        (fun l => l.stepIndex = 0)).length = 2 ∧
      ((executeTestCase envStep1Fails tcSample).logs.filter
        (fun l => l.stepIndex = 1)).length = 2 ∧
      ((executeTestCase envStep1Fails tcSample).logs.filter
        (fun l => 2 ≤ l.stepIndex)).length = 0 ∧
      (executeTestCase envStep1Fails tcSample).success = false) :=
  ⟨rfl, rfl,
    C2_stops_at_first_failing_step envStep1Fails tcSample
      (clickStep "#a") (clickStep "#b") [inputStep "#c" "v"]
      "failed to click element #b: element not visible"
      rfl (by decide) rfl rfl rfl rfl⟩

/-! ## C3 -/

/-- C3: for a run that reaches the step loop and in which every step and
every screenshot capture succeeds, the evidence list is exactly the initial
screenshot, one selective screenshot per step of type click, submit or change
in step order, and the final screenshot: 2 + k entries in total. -/
theorem C3_screenshot_count (env : ExecEnv) (tc : TestCaseM)
    (steps : List TestStep) (shot : String → Nat → String)
    (hp : env.parsedSteps = Except.ok steps) (hc : env.chromePath ≠ "")
    (hs : env.statErr = none) (hn : env.navigateErr = none)
    (hshot : ∀ t k, env.screenshot t k = some (shot t k))
    (hok : ∀ k (hk : k < steps.length), executeStep env (steps.get ⟨k, hk⟩) k = none) :
    (executeTestCase env tc).screenshots =
      shot "initial" 0 ::
        (((List.enumFrom 0 steps).filter (fun p => shouldTakeScreenshot p.2)).map
          (fun p => shot "step" p.1) ++ [shot "final" steps.length]) ∧
    (executeTestCase env tc).screenshots.length =
      2 + (steps.filter shouldTakeScreenshot).length ∧
    (executeTestCase env tc).success = true := by
  obtain ⟨r0, heq, -, -, -, hscr⟩ :=
    executeTestCase_reachLoop env tc steps hp hc hs hn
  rw [heq]
  have hok0 : ∀ k (hk : k < steps.length),
      executeStep env (steps.get ⟨k, hk⟩) (0 + k) = none := by
    intro k hk
    simpa [Nat.zero_add] using hok k hk
  obtain ⟨h1, h2⟩ := runSteps_all_ok env shot hshot steps 0 r0 hok0
  refine ⟨?_, ?_, h2⟩
  · rw [h1, hscr, hshot]
    simp
  · rw [h1, hscr, hshot]
    simp [length_filter_enumFrom]
    omega

/-- C3, witness: the count at a concrete three-step all-success run with two
key steps. -/
theorem C3_witness :
    (envAllOk stepsAllOk).parsedSteps = Except.ok stepsAllOk ∧
    ((executeTestCase (envAllOk stepsAllOk) tcSample).screenshots.length =
        2 + (stepsAllOk.filter shouldTakeScreenshot).length ∧
      (executeTestCase (envAllOk stepsAllOk) tcSample).success = true) :=
  ⟨rfl,
   (C3_screenshot_count (envAllOk stepsAllOk) tcSample stepsAllOk shotName
      rfl (by decide) rfl rfl (fun t k => rfl) (by decide)).2⟩

/-! ## C9 -/

/-- C9: a step whose type is none of the eight supported kinds fails with an
unsupported-step-type error that is fatal for the job: replay stops at that
step (no log entry references a later step), success=false, and the error
message names the failing step (1-based position) and the offending type. -/
theorem C9_unsupported_step_type_fatal (env : ExecEnv) (tc : TestCaseM)
    (pre : List TestStep) (s : TestStep) (post : List TestStep)
    (hp : env.parsedSteps = Except.ok (pre ++ s :: post))
    (hc : env.chromePath ≠ "") (hs : env.statErr = none)
    (hn : env.navigateErr = none)
    (hpre : ∀ k (hk : k < pre.length), executeStep env (pre.get ⟨k, hk⟩) k = none)
    (hbad : s.type ∉ (["click", "input", "keydown", "scroll", "touchstart",
      "touchend", "change", "submit"] : List String)) :
    (executeTestCase env tc).success = false ∧
    (executeTestCase env tc).errorMessage =
      "Step " ++ toString (pre.length + 1) ++ " failed: " ++
        ("unsupported step type: " ++ s.type) ∧
    ∀ l ∈ (executeTestCase env tc).logs, l.stepIndex ≤ (pre.length : Int) := by
  obtain ⟨r0, heq, hlogs, hsucc, -, -⟩ :=
    executeTestCase_reachLoop env tc (pre ++ s :: post) hp hc hs hn
  rw [heq]
  have hpre0 : ∀ k (hk : k < pre.length),
      executeStep env (pre.get ⟨k, hk⟩) (0 + k) = none := by
    intro k hk
    simpa using hpre k hk
  have hfail : executeStep env s (0 + pre.length) =
      some ("unsupported step type: " ++ s.type) :=
    executeStep_unsupported env s (0 + pre.length) hbad
  obtain ⟨ha, hb, hcl⟩ := runSteps_stop_fail env pre s post 0 r0
    ("unsupported step type: " ++ s.type) hpre0 hfail
  refine ⟨by rw [ha, hsucc], by rw [hb]; simp, ?_⟩
  intro l hl
  rcases hcl l hl with hm | hle
  · have hm1 := hlogs l hm
    omega
  · simpa using hle

theorem C9_witness :
    (executeTestCase (envAllOk stepsWithHover) tcSample).success = false ∧
    (executeTestCase (envAllOk stepsWithHover) tcSample).errorMessage =
      "Step 2 failed: unsupported step type: hover" := by
  have h := C9_unsupported_step_type_fatal (envAllOk stepsWithHover) tcSample
    [clickStep "#a"] ⟨"hover", "#menu", "", [], []⟩ [] rfl (by decide) rfl rfl
    (by decide) (by decide)
  exact ⟨h.1, by rw [h.2.1]; rfl⟩

/-! ## C4 -/

/-- C4, counterexample: after a first cleanup removes session s1, a second
cleanup of the same id returns no error at all (Go always returns nil), not
the SessionNotFoundError the claim states. -/
theorem C4_counterexample :
    lookupRecorder (RecorderManagerM.CleanupRecording mgrSample "s1").2 "s1" =
      none ∧
    (RecorderManagerM.CleanupRecording
      (RecorderManagerM.CleanupRecording mgrSample "s1").2 "s1").1 = none :=
  ⟨rfl, rfl⟩

/-- C4 (amended): calling cleanup twice in a row is safe: the first call
removes the session from the registry, and the second call is a silent no-op
that also reports success (never a SessionNotFoundError) and leaves the
registry unchanged. -/
theorem C4_cleanup_twice_silent (m : RecorderManagerM) (sessionID : String) :
    lookupRecorder (RecorderManagerM.CleanupRecording m sessionID).2 sessionID =
      none ∧
    RecorderManagerM.CleanupRecording
        (RecorderManagerM.CleanupRecording m sessionID).2 sessionID =
      (none, (RecorderManagerM.CleanupRecording m sessionID).2) := by
  constructor
  · simp only [RecorderManagerM.CleanupRecording, lookupRecorder]
    rw [find_after_cleanup]
    rfl
  · simp only [RecorderManagerM.CleanupRecording]
    refine congrArg (fun l => ((none : Option String), RecorderManagerM.mk l)) ?_
    rw [List.filter_filter]
    simp

/-! ## C5 -/

/-- C5: initializing with maxWorkers starts exactly maxWorkers persistent
workers on one shared queue of capacity 2 x maxWorkers; a submission marks
the id running and appends the job while the queue holds fewer than
2 x maxWorkers jobs, and blocks the producer (without erroring) exactly when
that many jobs are backlogged. -/
theorem C5_scheduler_init (m : Nat) (hm : 0 < m) :
    (InitExecutor m).workers.length = m ∧
    (InitExecutor m).queueCap = 2 * m ∧
    (InitExecutor m).workQueue = [] ∧
    (∀ (s : TestExecutorM) (job : ExecutionJobM),
      (s.workQueue.length < s.queueCap →
        ExecuteTestCaseWithOptions s job = SubmitOutcome.enqueued
          { s with running := insert job.executionId s.running,
                   workQueue := s.workQueue ++ [job] }) ∧
      (¬ s.workQueue.length < s.queueCap →
        ExecuteTestCaseWithOptions s job = SubmitOutcome.blocked
          { s with running := insert job.executionId s.running })) := by
  refine ⟨by simp [InitExecutor], by simp [InitExecutor, Nat.mul_comm], rfl, ?_⟩
  intro s job
  constructor
  · intro h
    simp [ExecuteTestCaseWithOptions, h]
  · intro h
    simp [ExecuteTestCaseWithOptions, h]

/-- C5, witness: the initialization facts at maxWorkers = 3. -/
theorem C5_witness :
    0 < 3 ∧
    ((InitExecutor 3).workers.length = 3 ∧ (InitExecutor 3).queueCap = 2 * 3) :=
  ⟨by decide,
   ⟨(C5_scheduler_init 3 (by decide)).1, (C5_scheduler_init 3 (by decide)).2.1⟩⟩

/-! ## C6 -/

/-- C6: once a worker completes a job, the execution id is removed from the
running set BEFORE the result is published on the job's channel (the event
trace lists removal first), so isRunning is false and the running count
excludes the id when the caller receives the result. -/
theorem C6_completion_removes_before_publish (s : TestExecutorM)
    (job : ExecutionJobM) (res : ExecutionResult) :
    (workerFinish s job res).2 =
      [WorkerEvent.removedRunning job.executionId,
       WorkerEvent.publishedResult job.executionId res] ∧
    job.executionId ∉ (workerFinish s job res).1.running ∧
    IsRunning (workerFinish s job res).1 job.executionId = false ∧
    GetRunningCount (workerFinish s job res).1 =
      (s.running.erase job.executionId).card := by
  refine ⟨rfl, ?_, ?_, rfl⟩
  · simp [workerFinish]
  · simp [IsRunning, workerFinish]

/-! ## C7 -/

/-- C7: starting a recording session under an id already present in the
registry is rejected with the duplicate-session error, and the registry (and
hence the original session's state and step list) is left untouched. -/
theorem C7_duplicate_session_rejected (env : RecEnv) (m : RecorderManagerM)
    (sessionID targetURL : String) (device : DeviceInfo) (r : ChromeRecorderM)
    (h : lookupRecorder m sessionID = some r) :
    (RecorderManagerM.StartRecording env m sessionID targetURL device).1 =
      some ("recording session " ++ sessionID ++ " already exists") ∧
    (RecorderManagerM.StartRecording env m sessionID targetURL device).2 = m ∧
    lookupRecorder
      (RecorderManagerM.StartRecording env m sessionID targetURL device).2
      sessionID = some r := by
  unfold RecorderManagerM.StartRecording
  rw [h]
  exact ⟨rfl, rfl, h⟩

/-- C7, witness: the rejection at a concrete registry holding a live session
under s1. -/
theorem C7_witness :
    lookupRecorder mgrSample "s1" = some recSample ∧
    ((RecorderManagerM.StartRecording recEnvOk mgrSample "s1" "http://x"
        devSample).1 =
      some ("recording session " ++ "s1" ++ " already exists") ∧
    (RecorderManagerM.StartRecording recEnvOk mgrSample "s1" "http://x"
        devSample).2 = mgrSample ∧
    lookupRecorder (RecorderManagerM.StartRecording recEnvOk mgrSample "s1"
        "http://x" devSample).2 "s1" = some recSample) :=
  ⟨rfl, C7_duplicate_session_rejected recEnvOk mgrSample "s1" "http://x"
    devSample recSample rfl⟩

/-! ## C8 -/

/-- C8: cancel returns true exactly when the id is in the running set, the id
is absent from the running set after the call, and cancelling an absent id
returns false and changes nothing. -/
theorem C8_cancel_spec (s : TestExecutorM) (executionId : Nat) :
    ((CancelExecution s executionId).1 = true ↔ executionId ∈ s.running) ∧
    executionId ∉ (CancelExecution s executionId).2.running ∧
    (executionId ∉ s.running → CancelExecution s executionId = (false, s)) := by
  by_cases h : executionId ∈ s.running <;> simp [CancelExecution, h]

/-! ## C10 -/

/-- C10: stopping a live session succeeds and leaves the session in the
registry with isRecording=false and its steps intact; a second stop on the
same session errors with the no-recording-in-progress message and leaves the
registry exactly as the first stop left it. -/
theorem C10_stop_not_idempotent (m : RecorderManagerM) (sessionID : String)
    (r : ChromeRecorderM) (h : lookupRecorder m sessionID = some r)
    (hrec : r.isRecording = true) :
    (RecorderManagerM.StopRecording m sessionID).1 = none ∧
    lookupRecorder (RecorderManagerM.StopRecording m sessionID).2 sessionID =
      some { r with isRecording := false } ∧
    ({ r with isRecording := false } : ChromeRecorderM).steps = r.steps ∧
    (RecorderManagerM.StopRecording
        (RecorderManagerM.StopRecording m sessionID).2 sessionID).1 =
      some "no recording in progress" ∧
    (RecorderManagerM.StopRecording
        (RecorderManagerM.StopRecording m sessionID).2 sessionID).2 =
      (RecorderManagerM.StopRecording m sessionID).2 := by
  have hstop : ChromeRecorderM.StopRecording r =
      (none, { r with isRecording := false }) := by
    simp [ChromeRecorderM.StopRecording, hrec]
  have h1 : RecorderManagerM.StopRecording m sessionID =
      (none, ⟨m.recorders.map (fun p =>
        if p.1 == sessionID then (p.1, { r with isRecording := false })
        else p)⟩) := by
    simp only [RecorderManagerM.StopRecording, h, hstop]
  obtain ⟨pr, hpr⟩ : ∃ pr, m.recorders.find? (fun p => p.1 == sessionID) =
      some pr := by
    unfold lookupRecorder at h
    cases hf : m.recorders.find? (fun p => p.1 == sessionID) with
    | none => rw [hf] at h; simp at h
    | some pr => exact ⟨pr, rfl⟩
  have h2 : lookupRecorder (RecorderManagerM.StopRecording m sessionID).2
      sessionID = some { r with isRecording := false } := by
    rw [h1]
    unfold lookupRecorder
    rw [find_update m.recorders sessionID { r with isRecording := false } pr hpr]
    rfl
  have hstop2 : ChromeRecorderM.StopRecording
      ({ r with isRecording := false } : ChromeRecorderM) =
      (some "no recording in progress", { r with isRecording := false }) := by
    simp [ChromeRecorderM.StopRecording]
  have h3 : RecorderManagerM.StopRecording
      (RecorderManagerM.StopRecording m sessionID).2 sessionID =
      (some "no recording in progress",
        (RecorderManagerM.StopRecording m sessionID).2) := by
    generalize hM : (RecorderManagerM.StopRecording m sessionID).2 = m1
    rw [hM] at h2
    simp only [RecorderManagerM.StopRecording, h2, hstop2]
  refine ⟨by rw [h1], h2, rfl, by rw [h3], by rw [h3]⟩

/-- C10, witness: the two stops at the concrete registry holding the live
session s1. -/
theorem C10_witness :
    lookupRecorder mgrSample "s1" = some recSample ∧
    recSample.isRecording = true ∧
    ((RecorderManagerM.StopRecording mgrSample "s1").1 = none ∧
    (RecorderManagerM.StopRecording
        (RecorderManagerM.StopRecording mgrSample "s1").2 "s1").1 =
      some "no recording in progress") := by
  have h := C10_stop_not_idempotent mgrSample "s1" recSample rfl rfl
  exact ⟨rfl, rfl, h.1, h.2.2.2.1⟩

end AutoUI
